import Mathlib

/-!
Verification development for the pronunciation-exam browser application.

The definitions below are a shallow embedding of the application's core
logic: the exam-flow step machine and resume-after-reload logic (two
observed variants of the App component), the recording-session countdown
timer, the finish-session handler, the dashboard device-acquisition
routine, and the clip-saving logic.  External browser facilities
(localStorage, getUserMedia grant outcomes, JSON parsing outcomes) are
modelled as explicit inputs: an `Option` wrapping for an absent record and
a second `Option` layer for a record that is present but fails to parse.
-/

namespace VocalBooth

/-- The linear step sequence of the exam flow (the `AppStep` enum). -/
inductive AppStep where
  | LOGIN
  | DASHBOARD
  | SESSION_1
  | BREAK_1
  | SESSION_2
  | BREAK_2
  | SESSION_3
  | COMPLETION
  deriving DecidableEq, Repr

/-- A logged-in user (the `User` type): full name plus document id. -/
structure User where
  fullName : String
  docId : String
  deriving DecidableEq, Repr

/-- An in-memory recorded clip (the `Recording` type).  The blob is the
byte payload of the recorded media. -/
structure Recording where
  sessionId : Nat
  blob : List Nat
  url : String
  filename : String
  deriving DecidableEq, Repr

/-- The persisted form of a clip, as written to the clips record in
storage: the blob is serialised as a plain byte array under `blobData`. -/
structure StoredRecording where
  sessionId : Nat
  blobData : List Nat
  url : String
  filename : String
  deriving DecidableEq, Repr

/-- Re-hydrating one persisted clip on load: the byte array is wrapped
back into a blob, every other field is kept. -/
def restoreRecording (r : StoredRecording) : Recording :=
  { sessionId := r.sessionId, blob := r.blobData, url := r.url, filename := r.filename }

/-- Serialising one in-memory clip for the persisted clips record. -/
def toStored (r : Recording) : StoredRecording :=
  { sessionId := r.sessionId, blobData := r.blob, url := r.url, filename := r.filename }

/-- The persisted session checkpoint (the `vocalBoothCurrentSession`
record): which session, and whether the user was on its break screen. -/
structure SessionCheckpoint where
  sessionNumber : Nat
  isBreakScreen : Bool
  deriving DecidableEq, Repr

/-- A storage slot holding a record of payload type a: `none` means the
key is absent, `some none` means the key is present but its JSON fails to
parse, `some (some v)` means it parses to v. -/
def StorageSlot (a : Type) : Type := Option (Option a)

/-- The recordings-loading effect run on mount (first App effect): a
present, well-formed clips record is re-hydrated into memory; a present
but malformed record is discarded from storage (removeItem) and memory
stays empty; an absent record leaves everything empty.  Returns the
in-memory recordings list together with the storage slot afterwards. -/
def loadRecordings (savedRecordings : StorageSlot (List StoredRecording)) :
    List Recording × StorageSlot (List StoredRecording) :=
  match savedRecordings with
  | none => ([], none)
  | some none => ([], none)
  | some (some recs) => (recs.map restoreRecording, some (some recs))

/-- Variant A (the source with the sidebar session-status helpers) of the
step restored from a saved checkpoint once the clips record did not force
completion.  No checkpoint lands on the dashboard; a break checkpoint
returns to the same break screen (any other break number falls back to the
dashboard); an in-progress session checkpoint with a truthy session number
is sent to the dashboard.  A malformed checkpoint throws inside the outer
try, so no step is ever set and the initial LOGIN state remains; a falsy
(zero) session number on a non-break checkpoint likewise sets no step. -/
def resumeFromSessionA (savedSession : StorageSlot SessionCheckpoint) : AppStep :=
  match savedSession with
  | none => AppStep.DASHBOARD
  | some none => AppStep.LOGIN
  | some (some sd) =>
    if sd.isBreakScreen then
      if sd.sessionNumber = 1 then AppStep.BREAK_1
      else if sd.sessionNumber = 2 then AppStep.BREAK_2
      else AppStep.DASHBOARD
    else
      if sd.sessionNumber ≠ 0 then AppStep.DASHBOARD
      else AppStep.LOGIN

/-- Variant B (the other observed App source) of the step restored from a
saved checkpoint: break checkpoints behave as in variant A, but an
in-progress session checkpoint advances to the break after that session
(COMPLETION after session 3).  A malformed checkpoint is caught by the
outer handler, which clears the corrupted records and sets the dashboard. -/
def resumeFromSessionB (savedSession : StorageSlot SessionCheckpoint) : AppStep :=
  match savedSession with
  | none => AppStep.DASHBOARD
  | some none => AppStep.DASHBOARD
  | some (some sd) =>
    if sd.isBreakScreen then
      if sd.sessionNumber = 1 then AppStep.BREAK_1
      else if sd.sessionNumber = 2 then AppStep.BREAK_2
      else AppStep.DASHBOARD
    else
      if sd.sessionNumber = 1 then AppStep.BREAK_1
      else if sd.sessionNumber = 2 then AppStep.BREAK_2
      else if sd.sessionNumber = 3 then AppStep.COMPLETION
      else AppStep.DASHBOARD

/-- Variant A of the mount resume effect: with no saved user nothing is
restored and the step stays LOGIN.  With a saved user, a well-formed clips
record of length at least 3 returns COMPLETION immediately; otherwise
(fewer clips, a malformed clips record, or no clips record) the saved
checkpoint decides the step. -/
def resumeStepA (savedUser : Option User)
    (savedRecordings : StorageSlot (List StoredRecording))
    (savedSession : StorageSlot SessionCheckpoint) : AppStep :=
  match savedUser with
  | none => AppStep.LOGIN
  | some _ =>
    match savedRecordings with
    | some (some recs) =>
      if 3 ≤ recs.length then AppStep.COMPLETION
      else resumeFromSessionA savedSession
    | some none => resumeFromSessionA savedSession
    | none => resumeFromSessionA savedSession

/-- Variant B of the mount resume effect; identical gating on the saved
user and the clips record, but with variant B checkpoint handling. -/
def resumeStepB (savedUser : Option User)
    (savedRecordings : StorageSlot (List StoredRecording))
    (savedSession : StorageSlot SessionCheckpoint) : AppStep :=
  match savedUser with
  | none => AppStep.LOGIN
  | some _ =>
    match savedRecordings with
    | some (some recs) =>
      if 3 ≤ recs.length then AppStep.COMPLETION
      else resumeFromSessionB savedSession
    | some none => resumeFromSessionB savedSession
    | none => resumeFromSessionB savedSession

/-! ## Recording-session countdown timer (SessionRecorder) -/

/-- The countdown state of one recording session: the remaining seconds
(the `timeLeft` state, initialised to 60), whether the per-second interval
is installed (`timerRef.current` being non-null), and how many times the
finish-session action has been fired by a tick. -/
structure TimerState where
  timeLeft : Nat
  timerRunning : Bool
  completionFires : Nat
  deriving DecidableEq, Repr

/-- The state right after `startTimer` begins a fresh session countdown:
60 seconds remaining, interval installed, no completion fired yet. -/
def startTimerState : TimerState :=
  { timeLeft := 60, timerRunning := true, completionFires := 0 }

/-- `stopTimer`: if an interval is installed it is cleared and the ref is
nulled; otherwise nothing happens. -/
def stopTimer (s : TimerState) : TimerState :=
  { s with timerRunning := false }

/-- One interval tick of the countdown.  The updater receives the previous
remaining time: at 1 or below it fires the finish-session action (which
itself calls `stopTimer`, clearing the interval so no further tick runs)
and sets the remaining time to 0; otherwise it decrements.  A tick on a
cleared interval never runs, modelled as the identity. -/
def tick (s : TimerState) : TimerState :=
  if s.timerRunning then
    if s.timeLeft ≤ 1 then
      { timeLeft := 0, timerRunning := false, completionFires := s.completionFires + 1 }
    else
      { s with timeLeft := s.timeLeft - 1 }
  else s

/-! ## Finish-session handler (SessionRecorder) -/

/-- The states of the underlying MediaRecorder object. -/
inductive RecorderState where
  | inactive
  | recording
  | paused
  deriving DecidableEq, Repr

/-- What `handleFinishSession` does after cancelling the countdown. -/
inductive FinishOutcome where
  | stopRecorder
  | completeWith (blob : List Nat)
  deriving DecidableEq, Repr

/-- `handleFinishSession`: with an active error message it cancels the
timer and completes at once with an empty blob; otherwise it cancels the
timer and, if a recorder exists in a non-inactive state, stops it (its
stop callback then assembles the real clip), else it completes with an
empty blob so the flow still advances. -/
def handleFinishSession (error : Option String) (recorder : Option RecorderState) :
    FinishOutcome :=
  match error with
  | some _ => FinishOutcome.completeWith []
  | none =>
    match recorder with
    | some st =>
      if st ≠ RecorderState.inactive then FinishOutcome.stopRecorder
      else FinishOutcome.completeWith []
    | none => FinishOutcome.completeWith []

/-! ## Dashboard: device acquisition and readiness gating -/

/-- One media track: its kind, toggle flag and ready state.  `live` is
modelled as a Boolean (`readyStateLive = true` when the track's
readyState is live, false when it has ended). -/
inductive TrackKind where
  | video
  | audio
  deriving DecidableEq, Repr

structure MediaTrack where
  kind : TrackKind
  enabled : Bool
  readyStateLive : Bool
  deriving DecidableEq, Repr

/-- A device stream: the list of tracks combined into it. -/
structure DeviceStream where
  tracks : List MediaTrack
  deriving DecidableEq, Repr

/-- The outcome of `enableDevices` as far as stream production goes:
either a combined stream was produced, or both permission requests failed
and the permission error flag is raised with no stream. -/
inductive EnableResult where
  | acquired (stream : DeviceStream)
  | permissionError
  deriving DecidableEq, Repr

/-- The stream-production core of `enableDevices`, as a function of the
two independent grant outcomes (the camera request and the microphone
request, each yielding a stream or being denied): if at least one request
succeeded, a fresh stream is assembled by adding first all tracks of the
video stream, then all tracks of the audio stream; if both failed, the
permission error is reported and no stream results. -/
def enableDevicesResult (videoGrant audioGrant : Option DeviceStream) : EnableResult :=
  match videoGrant, audioGrant with
  | none, none => EnableResult.permissionError
  | v, a =>
    EnableResult.acquired
      { tracks := (v.map DeviceStream.tracks).getD [] ++ (a.map DeviceStream.tracks).getD [] }

/-- The dashboard readiness flags mirrored into component state. -/
structure DashboardFlags where
  videoReady : Bool
  audioReady : Bool
  videoEnabled : Bool
  audioEnabled : Bool
  deriving DecidableEq, Repr

/-- `allSystemsGo`: every readiness and toggle flag must hold. -/
def allSystemsGo (s : DashboardFlags) : Bool :=
  s.videoReady && s.audioReady && s.videoEnabled && s.audioEnabled

/-- The start button's disabled attribute: the negation of
`allSystemsGo`; while disabled the click handler (the start transition)
cannot fire. -/
def startButtonDisabled (s : DashboardFlags) : Bool :=
  !(allSystemsGo s)

/-! ## Stream lifecycle: at most one live stream -/

/-- The stream-lifecycle world of the dashboard controller, tracking
which acquired streams still have unstopped tracks.  `held` is the
`streamRef.current` reference (by stream id), `liveStreams` the ids of
streams whose tracks have not all been stopped, `nextId` a supply of
fresh stream ids. -/
structure ControllerWorld where
  held : Option Nat
  liveStreams : List Nat
  nextId : Nat
  deriving DecidableEq, Repr

/-- The world before any acquisition. -/
def initialWorld : ControllerWorld :=
  { held := none, liveStreams := [], nextId := 0 }

/-- Stopping every track of the currently held stream (the first thing
`enableDevices` does, and what the unmount cleanup does): the held stream
leaves the live set.  A no-op when nothing is held. -/
def stopHeldTracks (w : ControllerWorld) : ControllerWorld :=
  match w.held with
  | none => w
  | some i => { w with liveStreams := w.liveStreams.erase i }

/-- One `enableDevices` call: previous tracks are stopped first, then the
device requests are issued.  When at least one grant succeeds a fresh
combined stream becomes the held stream and is live; when both fail the
reference is left pointing at the (now fully stopped) old stream. -/
def acquireOp (grantSuccess : Bool) (w : ControllerWorld) : ControllerWorld :=
  let w2 := stopHeldTracks w
  if grantSuccess then
    { held := some w2.nextId
      liveStreams := w2.liveStreams ++ [w2.nextId]
      nextId := w2.nextId + 1 }
  else w2

/-- The unmount cleanup: stop every track of the held stream and clear
the reference. -/
def releaseOp (w : ControllerWorld) : ControllerWorld :=
  { stopHeldTracks w with held := none }

/-- A lifecycle operation: an acquisition (with its grant outcome) or a
release. -/
inductive MediaOp where
  | acquire (grantSuccess : Bool)
  | release
  deriving DecidableEq, Repr

def runOp (op : MediaOp) (w : ControllerWorld) : ControllerWorld :=
  match op with
  | MediaOp.acquire g => acquireOp g w
  | MediaOp.release => releaseOp w

def runOps (ops : List MediaOp) (w : ControllerWorld) : ControllerWorld :=
  match ops with
  | [] => w
  | op :: rest => runOps rest (runOp op w)

/-- The single-stream invariant: at most one live stream, and any live
stream is exactly the held one (so a replaced or released stream is never
left with running tracks). -/
def StreamInvariant (w : ControllerWorld) : Prop :=
  w.liveStreams.length ≤ 1 ∧ ∀ i ∈ w.liveStreams, w.held = some i

/-! ## Saving a completed clip (App.saveRecording) -/

/-- Collapsing every run of whitespace in the full name to a single
underscore, as the filename sanitiser does. -/
def collapseSpaces : List Char → List Char
  | [] => []
  | c :: rest =>
    if c.isWhitespace then
      '_' :: collapseSpaces (rest.dropWhile Char.isWhitespace)
    else
      c :: collapseSpaces rest
  termination_by l => l.length
  decreasing_by
    all_goals simp_wf
    all_goals exact Nat.lt_succ_of_le (List.Sublist.length_le (List.dropWhile_sublist _))

/-- The generated download filename for a session's clip. -/
def sessionFilename (fullName : String) (sessionId : Nat) : String :=
  String.mk (collapseSpaces fullName.data) ++ "_Session_" ++ toString sessionId ++ ".webm"

/-- Modelling the browser's object-URL allocator (an external
collaborator) as a deterministic function of the blob's bytes. -/
def createObjectURL (blob : List Nat) : String :=
  "blob:" ++ toString blob.length

/-- The recordings-list update inside `saveRecording`: any prior clip for
the same session number is filtered out, then the new clip is appended. -/
def saveRecordingList (prev : List Recording) (newRec : Recording) : List Recording :=
  (prev.filter fun r => r.sessionId ≠ newRec.sessionId) ++ [newRec]

/-- The app state touched by `saveRecording`: the logged-in user, the
current step, the in-memory clips, and the two persisted records it
affects (the clips record and the session checkpoint). -/
structure AppState where
  user : Option User
  currentStep : AppStep
  recordings : List Recording
  storedRecordings : Option (List StoredRecording)
  storedSession : Option SessionCheckpoint
  deriving DecidableEq, Repr

/-- The persistence effect watching the recordings list: it writes the
serialised list whenever the list is non-empty, and otherwise leaves the
stored record as it was. -/
def persistRecordings (recs : List Recording)
    (prevStored : Option (List StoredRecording)) : Option (List StoredRecording) :=
  if 0 < recs.length then some (recs.map toStored) else prevStored

/-- `saveRecording`: with no logged-in user it returns immediately and
nothing changes.  Otherwise it builds the new clip (object URL, sanitised
filename), replaces any prior clip for the session in the list, clears
the session checkpoint (the delayed removeItem), persists the updated
clips, and advances the step: session 1 to BREAK_1, 2 to BREAK_2, 3 to
COMPLETION (any other number leaves the step alone). -/
def saveRecording (s : AppState) (blob : List Nat) (sessionId : Nat) : AppState :=
  match s.user with
  | none => s
  | some u =>
    let newRec : Recording :=
      { sessionId := sessionId
        blob := blob
        url := createObjectURL blob
        filename := sessionFilename u.fullName sessionId }
    let newRecs := saveRecordingList s.recordings newRec
    { s with
      recordings := newRecs
      storedRecordings := persistRecordings newRecs s.storedRecordings
      storedSession := none
      currentStep :=
        if sessionId = 1 then AppStep.BREAK_1
        else if sessionId = 2 then AppStep.BREAK_2
        else if sessionId = 3 then AppStep.COMPLETION
        else s.currentStep }

/-- A concrete live, enabled camera track for evaluating the model. -/
def sampleVideoTrack : MediaTrack :=
  { kind := TrackKind.video, enabled := true, readyStateLive := true }

/-- A concrete live, enabled microphone track for evaluating the model. -/
def sampleAudioTrack : MediaTrack :=
  { kind := TrackKind.audio, enabled := true, readyStateLive := true }

/-- A granted camera stream: one live video track. -/
def sampleVideoStream : DeviceStream := { tracks := [sampleVideoTrack] }

/-- A granted microphone stream: one live audio track. -/
def sampleAudioStream : DeviceStream := { tracks := [sampleAudioTrack] }

/-- A concrete clip for session 1. -/
def sampleClip1 : Recording :=
  { sessionId := 1, blob := [], url := "u1", filename := "f1" }

/-- A concrete clip for session 2. -/
def sampleClip2 : Recording :=
  { sessionId := 2, blob := [3], url := "u2", filename := "f2" }

/-- A second, different clip for session 2 (a re-run of the session). -/
def sampleClip2b : Recording :=
  { sessionId := 2, blob := [7, 7], url := "u3", filename := "f3" }

/-- The dashboard flags after acquiring a stream where only the
microphone was granted: audio is ready and enabled, video is not. -/
def audioOnlyFlags : DashboardFlags :=
  { videoReady := false
    audioReady := true
    videoEnabled := true
    audioEnabled := true }

/-- An app state with no logged-in user but a stale checkpoint. -/
def noUserState : AppState :=
  { user := none
    currentStep := AppStep.SESSION_1
    recordings := []
    storedRecordings := none
    storedSession := some { sessionNumber := 1, isBreakScreen := false } }

/-- A concrete mid-exam app state used to evaluate the model on explicit
inputs: a logged-in user sitting in session 2 with no clips yet. -/
def midSession2State : AppState :=
  { user := some { fullName := "Ada L", docId := "Ada L" }
    currentStep := AppStep.SESSION_2
    recordings := []
    storedRecordings := none
    storedSession := some { sessionNumber := 2, isBreakScreen := false } }

/-! ## Theorems -/

/-- C1: on resume after a page reload (app mount), if 3 or more recorded
clips are already persisted, the restored step is COMPLETION, regardless
of any other persisted checkpoint; this holds in both source variants of
the resume effect. -/
theorem resume_three_clips_completion
    (u : User) (recs : List StoredRecording) (sess : StorageSlot SessionCheckpoint)
    (h : 3 ≤ recs.length) :
    resumeStepA (some u) (some (some recs)) sess = AppStep.COMPLETION ∧
    resumeStepB (some u) (some (some recs)) sess = AppStep.COMPLETION := by
  constructor <;> simp [resumeStepA, resumeStepB, h]

theorem resume_three_clips_completion_witness :
    3 ≤ ([{ sessionId := 1, blobData := [7], url := "b", filename := "f1" },
          { sessionId := 2, blobData := [], url := "b", filename := "f2" },
          { sessionId := 3, blobData := [9], url := "b", filename := "f3" }] :
          List StoredRecording).length ∧
    resumeStepA (some { fullName := "Ada L", docId := "Ada L" })
      (some (some [{ sessionId := 1, blobData := [7], url := "b", filename := "f1" },
                   { sessionId := 2, blobData := [], url := "b", filename := "f2" },
                   { sessionId := 3, blobData := [9], url := "b", filename := "f3" }]))
      (some (some { sessionNumber := 2, isBreakScreen := true })) = AppStep.COMPLETION ∧
    resumeStepB (some { fullName := "Ada L", docId := "Ada L" })
      (some (some [{ sessionId := 1, blobData := [7], url := "b", filename := "f1" },
                   { sessionId := 2, blobData := [], url := "b", filename := "f2" },
                   { sessionId := 3, blobData := [9], url := "b", filename := "f3" }]))
      (some (some { sessionNumber := 2, isBreakScreen := true })) = AppStep.COMPLETION :=
  ⟨by decide,
   (resume_three_clips_completion _ _ _ (by decide)).1,
   (resume_three_clips_completion _ _ _ (by decide)).2⟩

/-- C9: the two observed source variants of the resume-after-reload logic
disagree on a persisted checkpoint recording an in-progress (non-break)
session: variant A restores to DASHBOARD while variant B advances to the
corresponding break (or COMPLETION after session 3), so the two resume
functions differ on every such input. -/
theorem resume_variants_disagree
    (u : User) (recs : List StoredRecording) (n : Nat)
    (hr : recs.length < 3) (h1 : 1 ≤ n) (h3 : n ≤ 3) :
    resumeStepA (some u) (some (some recs))
        (some (some { sessionNumber := n, isBreakScreen := false })) = AppStep.DASHBOARD ∧
    resumeStepB (some u) (some (some recs))
        (some (some { sessionNumber := n, isBreakScreen := false })) =
      (if n = 1 then AppStep.BREAK_1
       else if n = 2 then AppStep.BREAK_2 else AppStep.COMPLETION) ∧
    resumeStepA (some u) (some (some recs))
        (some (some { sessionNumber := n, isBreakScreen := false })) ≠
      resumeStepB (some u) (some (some recs))
        (some (some { sessionNumber := n, isBreakScreen := false })) := by
  have hnot : ¬ 3 ≤ recs.length := by omega
  refine ⟨?_, ?_, ?_⟩ <;>
    · simp only [resumeStepA, resumeStepB, resumeFromSessionA, resumeFromSessionB, hnot,
        if_false]
      interval_cases n <;> simp

theorem resume_variants_disagree_witness :
    ([] : List StoredRecording).length < 3 ∧ 1 ≤ 1 ∧ 1 ≤ 3 ∧
    resumeStepA (some { fullName := "Ada L", docId := "Ada L" }) (some (some []))
        (some (some { sessionNumber := 1, isBreakScreen := false })) = AppStep.DASHBOARD ∧
    resumeStepB (some { fullName := "Ada L", docId := "Ada L" }) (some (some []))
        (some (some { sessionNumber := 1, isBreakScreen := false })) =
      (if 1 = 1 then AppStep.BREAK_1
       else if 1 = 2 then AppStep.BREAK_2 else AppStep.COMPLETION) ∧
    resumeStepA (some { fullName := "Ada L", docId := "Ada L" }) (some (some []))
        (some (some { sessionNumber := 1, isBreakScreen := false })) ≠
      resumeStepB (some { fullName := "Ada L", docId := "Ada L" }) (some (some []))
        (some (some { sessionNumber := 1, isBreakScreen := false })) :=
  ⟨by decide, by decide, by decide,
   (resume_variants_disagree _ [] 1 (by decide) (by decide) (by decide)).1,
   (resume_variants_disagree _ [] 1 (by decide) (by decide) (by decide)).2.1,
   (resume_variants_disagree _ [] 1 (by decide) (by decide) (by decide)).2.2⟩

/-- C8: a persisted clips record that fails to parse at load time is
discarded from storage, the app starts with zero clips in memory, and the
restored step is computed exactly as if no clips record existed (both
variants). -/
theorem corrupted_clips_record_discarded
    (u : User) (sess : StorageSlot SessionCheckpoint) :
    loadRecordings (some none) = ([], none) ∧
    resumeStepA (some u) (some none) sess = resumeStepA (some u) none sess ∧
    resumeStepB (some u) (some none) sess = resumeStepB (some u) none sess := by
  refine ⟨rfl, ?_, ?_⟩ <;> simp [resumeStepA, resumeStepB]

/-- A tick on a running countdown above 1 second just decrements. -/
theorem tick_run_dec (t f : Nat) (h : ¬ t ≤ 1) :
    tick { timeLeft := t, timerRunning := true, completionFires := f } =
      { timeLeft := t - 1, timerRunning := true, completionFires := f } := by
  simp [tick, h]

/-- A tick on a running countdown at 1 second or below fires completion,
zeroes the clock and clears the interval. -/
theorem tick_run_fire (t f : Nat) (h : t ≤ 1) :
    tick { timeLeft := t, timerRunning := true, completionFires := f } =
      { timeLeft := 0, timerRunning := false, completionFires := f + 1 } := by
  simp [tick, h]

/-- A tick on a cleared interval does nothing. -/
theorem tick_stopped (t f : Nat) :
    tick { timeLeft := t, timerRunning := false, completionFires := f } =
      { timeLeft := t, timerRunning := false, completionFires := f } := by
  simp [tick]

/-- Closed form of the countdown after n ticks from a fresh 60-second
start: while n < 60 the interval is still installed, 60 - n seconds
remain and no completion has fired; from the 60th tick on, the remaining
time is 0, the interval is cleared and completion has fired once. -/
theorem countdown_iterate (n : Nat) :
    tick^[n] startTimerState =
      if n < 60 then { timeLeft := 60 - n, timerRunning := true, completionFires := 0 }
      else { timeLeft := 0, timerRunning := false, completionFires := 1 } := by
  induction n with
  | zero => simp [startTimerState]
  | succ k ih =>
    rw [Function.iterate_succ_apply', ih]
    by_cases hk : k < 60
    · rw [if_pos hk]
      by_cases hk1 : k + 1 < 60
      · rw [if_pos hk1, tick_run_dec _ _ (by omega)]
        congr 1
      · have hk59 : k = 59 := by omega
        subst hk59
        rw [if_neg hk1, tick_run_fire _ _ (by omega)]
    · have hk1 : ¬ (k + 1 < 60) := by omega
      rw [if_neg hk, if_neg hk1, tick_stopped]

/-- C2: the per-second countdown starting at 60 fires the completion
action exactly once, at the tick where the remaining time reaches 0
(never before, and never a second time since the firing handler clears
the interval); and `stopTimer` is idempotent and a no-op when no
countdown is running. -/
theorem countdown_fires_once_and_stop_idempotent :
    (∀ n : Nat, (tick^[n] startTimerState).completionFires = if 60 ≤ n then 1 else 0) ∧
    (∀ n : Nat, (tick^[n] startTimerState).timeLeft = 60 - n) ∧
    (∀ s : TimerState, stopTimer (stopTimer s) = stopTimer s) ∧
    (∀ s : TimerState, s.timerRunning = false → stopTimer s = s) := by
  refine ⟨?_, ?_, ?_, ?_⟩
  · intro n
    rw [countdown_iterate]
    by_cases h : n < 60
    · rw [if_pos h, if_neg (by omega)]
    · rw [if_neg h, if_pos (by omega)]
  · intro n
    rw [countdown_iterate]
    by_cases h : n < 60
    · rw [if_pos h]
    · rw [if_neg h]
      show 0 = 60 - n
      omega
  · intro s
    rfl
  · intro s h
    cases s with
    | mk t r f =>
      simp only [stopTimer]
      simp_all

theorem countdown_fires_once_and_stop_idempotent_witness :
    (tick^[60] startTimerState).completionFires = (if 60 ≤ 60 then 1 else 0) ∧
    (tick^[59] startTimerState).completionFires = (if 60 ≤ 59 then 1 else 0) ∧
    (tick^[61] startTimerState).completionFires = (if 60 ≤ 61 then 1 else 0) ∧
    stopTimer { timeLeft := 9, timerRunning := false, completionFires := 0 } =
      { timeLeft := 9, timerRunning := false, completionFires := 0 } :=
  ⟨countdown_fires_once_and_stop_idempotent.1 60,
   countdown_fires_once_and_stop_idempotent.1 59,
   countdown_fires_once_and_stop_idempotent.1 61,
   countdown_fires_once_and_stop_idempotent.2.2.2 _ rfl⟩

/-- C5: the finish handler always either stops the active recorder
(which then produces the real clip) or completes with an empty
zero-length clip; in particular an active error state, a missing
recorder, or an inactive recorder each makes it complete with the empty
clip, and saving an empty clip for session n still advances the flow to
the next step (BREAK_1, BREAK_2 or COMPLETION). -/
theorem finish_session_always_advances
    (error : Option String) (recorder : Option RecorderState)
    (s : AppState) (n : Nat)
    (hu : s.user.isSome = true) (h1 : 1 ≤ n) (h3 : n ≤ 3) :
    (handleFinishSession error recorder = FinishOutcome.stopRecorder ∨
      handleFinishSession error recorder = FinishOutcome.completeWith []) ∧
    (error.isSome = true →
      handleFinishSession error recorder = FinishOutcome.completeWith []) ∧
    (error = none → (recorder = none ∨ recorder = some RecorderState.inactive) →
      handleFinishSession error recorder = FinishOutcome.completeWith []) ∧
    (saveRecording s [] n).currentStep =
      (if n = 1 then AppStep.BREAK_1
       else if n = 2 then AppStep.BREAK_2 else AppStep.COMPLETION) := by
  refine ⟨?_, ?_, ?_, ?_⟩
  · cases error with
    | some e => exact Or.inr rfl
    | none =>
      cases recorder with
      | none => exact Or.inr rfl
      | some st =>
        cases st with
        | inactive => exact Or.inr (by simp [handleFinishSession])
        | recording => exact Or.inl (by simp [handleFinishSession])
        | paused => exact Or.inl (by simp [handleFinishSession])
  · intro he
    cases error with
    | some e => rfl
    | none => simp at he
  · intro he hr
    subst he
    rcases hr with hr | hr <;> subst hr <;> simp [handleFinishSession]
  · obtain ⟨u, hu⟩ := Option.isSome_iff_exists.mp hu
    simp only [saveRecording, hu]
    interval_cases n <;> simp

theorem finish_session_always_advances_witness :
    midSession2State.user.isSome = true ∧
    (handleFinishSession (some "Camera was turned off.") none = FinishOutcome.stopRecorder ∨
      handleFinishSession (some "Camera was turned off.") none =
        FinishOutcome.completeWith []) ∧
    ((some "Camera was turned off." : Option String).isSome = true →
      handleFinishSession (some "Camera was turned off.") none =
        FinishOutcome.completeWith []) ∧
    (saveRecording midSession2State [] 2).currentStep =
      (if 2 = 1 then AppStep.BREAK_1
       else if 2 = 2 then AppStep.BREAK_2 else AppStep.COMPLETION) :=
  ⟨rfl,
   (finish_session_always_advances (some "Camera was turned off.") none
      midSession2State 2 rfl (by decide) (by decide)).1,
   (finish_session_always_advances (some "Camera was turned off.") none
      midSession2State 2 rfl (by decide) (by decide)).2.1,
   (finish_session_always_advances (some "Camera was turned off.") none
      midSession2State 2 rfl (by decide) (by decide)).2.2.2⟩

/-- C3: `enableDevices` requests video and audio independently; for every
combination of grant outcomes, a single granted kind yields a stream
holding exactly that grant's tracks (hence only tracks of that kind),
both grants yield the combined tracks, and a double denial reports the
permission error with no stream produced. -/
theorem enable_devices_independent_grants
    (v a : DeviceStream)
    (hv : ∀ t ∈ v.tracks, t.kind = TrackKind.video)
    (ha : ∀ t ∈ a.tracks, t.kind = TrackKind.audio) :
    (enableDevicesResult (some v) none = EnableResult.acquired { tracks := v.tracks } ∧
      ∀ t ∈ v.tracks, t.kind = TrackKind.video) ∧
    (enableDevicesResult none (some a) = EnableResult.acquired { tracks := a.tracks } ∧
      ∀ t ∈ a.tracks, t.kind = TrackKind.audio) ∧
    enableDevicesResult (some v) (some a) =
      EnableResult.acquired { tracks := v.tracks ++ a.tracks } ∧
    enableDevicesResult none none = EnableResult.permissionError := by
  refine ⟨⟨?_, hv⟩, ⟨?_, ha⟩, ?_, rfl⟩ <;> simp [enableDevicesResult]

theorem enable_devices_independent_grants_witness :
    (∀ t ∈ sampleVideoStream.tracks, t.kind = TrackKind.video) ∧
    enableDevicesResult (some sampleVideoStream) none =
      EnableResult.acquired { tracks := sampleVideoStream.tracks } ∧
    enableDevicesResult none (some sampleAudioStream) =
      EnableResult.acquired { tracks := sampleAudioStream.tracks } ∧
    enableDevicesResult none none = EnableResult.permissionError :=
  ⟨by decide,
   (enable_devices_independent_grants sampleVideoStream sampleAudioStream
      (by decide) (by decide)).1.1,
   (enable_devices_independent_grants sampleVideoStream sampleAudioStream
      (by decide) (by decide)).2.1.1,
   (enable_devices_independent_grants sampleVideoStream sampleAudioStream
      (by decide) (by decide)).2.2.2⟩

/-- After stopping the held stream's tracks, no live stream remains (a
consequence of the single-stream invariant). -/
theorem stopHeldTracks_live_nil (w : ControllerWorld) (h : StreamInvariant w) :
    (stopHeldTracks w).liveStreams = [] := by
  obtain ⟨hlen, hmem⟩ := h
  cases hw : w.held with
  | none =>
    simp only [stopHeldTracks, hw]
    cases hl : w.liveStreams with
    | nil => rfl
    | cons x xs =>
      have hx := hmem x (by rw [hl]; exact List.mem_cons_self x xs)
      rw [hw] at hx
      exact absurd hx (by simp)
  | some i =>
    simp only [stopHeldTracks, hw]
    cases hl : w.liveStreams with
    | nil => rfl
    | cons x xs =>
      cases xs with
      | nil =>
        have hx := hmem x (by rw [hl]; exact List.mem_cons_self x [])
        rw [hw] at hx
        have hxi : x = i := by injection hx with h2; exact h2.symm
        subst hxi
        simp
      | cons y ys =>
        rw [hl] at hlen
        simp at hlen

/-- Every lifecycle operation preserves the single-stream invariant. -/
theorem streamInvariant_runOp (op : MediaOp) (w : ControllerWorld)
    (h : StreamInvariant w) : StreamInvariant (runOp op w) := by
  have hnil := stopHeldTracks_live_nil w h
  cases op with
  | acquire g =>
    cases g with
    | true =>
      refine ⟨?_, ?_⟩ <;> simp [runOp, acquireOp, hnil]
    | false =>
      refine ⟨?_, ?_⟩ <;> simp [runOp, acquireOp, hnil]
  | release =>
    refine ⟨?_, ?_⟩ <;> simp [runOp, releaseOp, hnil]

/-- The invariant is carried through any sequence of operations. -/
theorem streamInvariant_runOps (ops : List MediaOp) (w : ControllerWorld)
    (h : StreamInvariant w) : StreamInvariant (runOps ops w) := by
  induction ops generalizing w with
  | nil => exact h
  | cons op rest ih => exact ih (runOp op w) (streamInvariant_runOp op w h)

/-- C4: for every sequence of Acquire and Release operations starting
from the initial controller state, at most one device stream is live at
any instant, and any live stream is the held one — so a replaced or
released stream never keeps running tracks. -/
theorem at_most_one_live_stream (ops : List MediaOp) :
    StreamInvariant (runOps ops initialWorld) :=
  streamInvariant_runOps ops initialWorld
    ⟨by simp [initialWorld], by simp [initialWorld]⟩

/-- C6: saving a clip for session n first removes any existing clip with
that session number and then appends the new clip, so exactly one clip
for session n remains; and if the prior list had at most one clip per
session number, so does the updated list. -/
theorem one_clip_per_session
    (prev : List Recording) (newRec : Recording)
    (h : (prev.map Recording.sessionId).Nodup) :
    ((saveRecordingList prev newRec).filter
        (fun r => r.sessionId = newRec.sessionId)).length = 1 ∧
    ((saveRecordingList prev newRec).map Recording.sessionId).Nodup := by
  constructor
  · have hnil : (prev.filter (fun r => r.sessionId ≠ newRec.sessionId)).filter
        (fun r => r.sessionId = newRec.sessionId) = [] := by
      apply List.filter_eq_nil_iff.mpr
      intro r hr
      have hne := List.of_mem_filter hr
      simp only [decide_eq_true_eq, decide_not] at hne ⊢
      simpa using hne
    rw [saveRecordingList, List.filter_append, hnil]
    simp
  · rw [saveRecordingList, List.map_append]
    apply List.Nodup.append
    · exact h.sublist (List.Sublist.map _ (List.filter_sublist _))
    · simp
    · intro x hx1 hx2
      rw [List.map_singleton, List.mem_singleton] at hx2
      subst hx2
      obtain ⟨r, hr, hsid⟩ := List.mem_map.mp hx1
      have hne := List.of_mem_filter hr
      simp only [decide_not, Bool.not_eq_eq_eq_not, Bool.not_true,
        decide_eq_false_iff_not] at hne
      exact hne hsid

theorem one_clip_per_session_witness :
    (([sampleClip1, sampleClip2].map Recording.sessionId).Nodup) ∧
    ((saveRecordingList [sampleClip1, sampleClip2] sampleClip2b).filter
        (fun r => r.sessionId = sampleClip2b.sessionId)).length = 1 ∧
    ((saveRecordingList [sampleClip1, sampleClip2] sampleClip2b).map
        Recording.sessionId).Nodup :=
  ⟨by decide,
   (one_clip_per_session [sampleClip1, sampleClip2] sampleClip2b (by decide)).1,
   (one_clip_per_session [sampleClip1, sampleClip2] sampleClip2b (by decide)).2⟩

/-- C7: whenever either media kind is not ready (for example a stream
where only audio was granted, so videoReady is false), the start button
is disabled, and therefore the start transition to SESSION_1 cannot
fire. -/
theorem start_disabled_unless_both_ready (s : DashboardFlags)
    (h : s.videoReady = false ∨ s.audioReady = false) :
    startButtonDisabled s = true := by
  rcases h with h | h <;> simp [startButtonDisabled, allSystemsGo, h]

theorem start_disabled_unless_both_ready_witness :
    (audioOnlyFlags.videoReady = false ∨ audioOnlyFlags.audioReady = false) ∧
    startButtonDisabled audioOnlyFlags = true :=
  ⟨Or.inl rfl, start_disabled_unless_both_ready audioOnlyFlags (Or.inl rfl)⟩

/-- C10: with no logged-in user, `saveRecording` returns immediately and
the whole app state — the recordings list, the persisted clips record,
the persisted checkpoint and the current step — is left unchanged. -/
theorem save_recording_no_user_noop (s : AppState) (blob : List Nat) (n : Nat)
    (h : s.user = none) : saveRecording s blob n = s := by
  simp [saveRecording, h]

theorem save_recording_no_user_noop_witness :
    noUserState.user = none ∧
    saveRecording noUserState [4, 2] 1 = noUserState :=
  ⟨rfl, save_recording_no_user_noop noUserState [4, 2] 1 rfl⟩

end VocalBooth
